import Mathlib

/-!
Shallow embedding of the logging subsystem of `ferroxide`
(`src/backend/src/util/logger.rs`).

The subsystem keeps three pieces of process-wide state: the alignment
width `MAX_MODULE_WIDTH`, the line counter `LINE_COUNT`, and the
on-disk log file.  We model the file as the list of its lines (each
line implicitly newline-terminated; log messages are assumed
newline-free, exactly the assumption the source's own line counting
relies on).  I/O outcomes that depend on the operating system (the
append-mode open at line 108, the record `writeln!` at line 122, the
`read_to_string` at line 129 and the `fs::write` at line 144) are made
explicit as boolean parameters of an `Outcome` record, so the single
`emit` function below covers every control path of the format closure.

Error paths deadlock.  The closure acquires the file mutex at line 107
and holds the guard across all three `log::error!` calls (line 116 on
open failure, line 133 on read failure, line 145 on write failure).
`log::error!` dispatches synchronously to the installed logger — this
very one — and env_logger's re-entrancy handling invokes the same
format closure again on the same thread, which blocks forever on
`lock.lock()` at line 107: `std::sync::Mutex` is not re-entrant, so
the nested acquisition never returns.  Moreover env_logger flushes a
record's formatted buffer only after the closure returns, so on these
paths no console output — neither the record's own line nor the error
message — is ever produced, the emit call never returns, and the lock
is never released (no later emit call can make progress either).  We
model this with an `EmitResult.deadlock` constructor carrying the
fatal site and the process-wide state observable at the hang point.
In particular, on the write-failure path the deadlock fires inside
`unwrap_or_else` at line 145, before the `LINE_COUNT.store(MAX_LINES)`
at line 148, so the counter reset is reached only when the whole
rotation succeeds.  By contrast a failed record append at line 122 is
`let _ = writeln!` — silently discarded, no `log::error!`, execution
continues normally.
-/

namespace Ferroxide

/-- `MAX_LINES` of logger.rs line 9: retention capacity, 8192 lines. -/
def MAX_LINES : Nat := 8192

/-- `MAX_LINES_THRESHOLD` of logger.rs line 10: `MAX_LINES + MAX_LINES / 2`. -/
def MAX_LINES_THRESHOLD : Nat := MAX_LINES + MAX_LINES / 2

/-- Rust's `{: <width$}` padding (the `Padded` display impl, logger.rs
lines 13-22): pad on the right with spaces to at least `w` columns,
never truncating. -/
def padTo (s : String) (w : Nat) : String :=
  s ++ String.mk (List.replicate (w - s.length) ' ')

/-- `max_target_width` of logger.rs lines 27-35, with the atomic cell made
explicit: given the stored `MAX_MODULE_WIDTH` and the target, return the
width handed to the formatter together with the new stored value. -/
def max_target_width (stored : Nat) (target : String) : Nat × Nat :=
  if stored < target.length then (target.length, target.length)
  else (stored, stored)

/-- The process-wide logger state: `MAX_MODULE_WIDTH`, `LINE_COUNT`
(logger.rs lines 24-25) and the lines of `logs.txt`. -/
structure LogState where
  maxWidth : Nat
  lineCount : Nat
  file : List String

/-- Outcome of each fallible I/O step inside one `emit` call:
the append-mode open (line 108), the record append `writeln!` (line 122),
the rotation `read_to_string` (line 129) and the rotation `fs::write`
(line 144). -/
structure Outcome where
  openOk : Bool
  appendOk : Bool
  readOk : Bool
  writeOk : Bool

/-- Observable effects of an emit call that returns: the console line
flushed after the closure returns, the rendered (padded) target field
inside it, whether a rotation was performed to completion, and the
content string passed to `fs::write` when one was. -/
structure Trace where
  console : String
  targetField : String
  rotated : Bool
  rotatedContent : Option String

/-- The `log::error!` site at which an emit call hangs: open failure
(logger.rs line 116), rotation read failure (line 133) or rotation
write failure (line 145). -/
inductive ErrSite where
  | openFail
  | readFail
  | writeFail

/-- Result of one emit call.  `done st tr`: the closure returned,
leaving process-wide state `st` and producing trace `tr`.
`deadlock site st`: the `log::error!` at `site` re-entered the format
closure while the line-107 mutex guard was held, so the call blocks
forever on the non-re-entrant lock; `st` is the process-wide state
(alignment width, counter, file) at the moment the thread hangs, no
console output is ever flushed, and the lock is never released. -/
inductive EmitResult where
  | done : LogState → Trace → EmitResult
  | deadlock : ErrSite → LogState → EmitResult

/-- Whether the emit call returns to its caller at all. -/
def EmitResult.returns : EmitResult → Bool
  | .done _ _ => true
  | .deadlock _ _ => false

/-- The process-wide state after the call: the final state when it
returns, the state at the hang point when it deadlocks. -/
def EmitResult.endState : EmitResult → LogState
  | .done st _ => st
  | .deadlock _ st => st

/-- The console line actually flushed by the call, if any: env_logger
flushes only after the format closure returns, so a deadlocked call
produces no console output at all. -/
def EmitResult.consoleOut : EmitResult → Option String
  | .done _ tr => some tr.console
  | .deadlock _ _ => none

/-- The width in columns of the rendered target field of the flushed
console line, if one was flushed. -/
def EmitResult.fieldWidth : EmitResult → Option Nat
  | .done _ tr => some tr.targetField.length
  | .deadlock _ _ => none

/-- Whether the call performed a rotation to completion (reached the
`LINE_COUNT.store(MAX_LINES)` at logger.rs line 148). -/
def EmitResult.rotated : EmitResult → Bool
  | .done _ tr => tr.rotated
  | .deadlock _ _ => false

/-- Whether control entered the rotation path (reached the
`read_to_string` at logger.rs line 129): true for a completed rotation
and for a call that hung inside rotation, false otherwise. -/
def EmitResult.rotationEntered : EmitResult → Bool
  | .done _ tr => tr.rotated
  | .deadlock .openFail _ => false
  | .deadlock .readFail _ => true
  | .deadlock .writeFail _ => true

/-- The content string handed to the rotation `fs::write`, when the call
completed a rotation. -/
def EmitResult.rotContent : EmitResult → Option String
  | .done _ tr => tr.rotatedContent
  | .deadlock _ _ => none

/-- Console form of a record (logger.rs line 105):
`" {LEVEL:5} {TARGET:<width} > {MESSAGE}"`. -/
def consoleLine (level target msg : String) (w : Nat) : String :=
  " " ++ padTo level 5 ++ " " ++ padTo target w ++ " > " ++ msg

/-- File form of a record (logger.rs line 122):
`"[{LEVEL:5} {TIMESTAMP}] {TARGET:<width} > {MESSAGE}"`. -/
def fileLine (level date target msg : String) (w : Nat) : String :=
  "[" ++ padTo level 5 ++ " " ++ date ++ "] " ++ padTo target w ++ " > " ++ msg

/-- The session-boundary header written at startup (logger.rs lines 81-85). -/
def headerLine (date : String) : String :=
  "=============================[ " ++ date ++ " ]============================="

/-- Rust's `[&str]::join(sep)`: interleave `sep` between the elements. -/
def joinWith (sep : String) : List String → String
  | [] => ""
  | [a] => a
  | a :: b :: rest => a ++ sep ++ joinWith sep (b :: rest)

/-- The retained suffix computed by rotation (logger.rs lines 138-142):
`lines().skip(line_count - MAX_LINES + 1)` applied to the file's lines,
where `pre` is the value `fetch_add` returned. -/
def rotateKeep (file : List String) (pre : Nat) : List String :=
  file.drop (pre - MAX_LINES + 1)

/-- One call of the format closure installed by `init` (logger.rs lines
89-150), i.e. the `emit` entry point in its `Ready` state.  Mirrors the
source order: update the alignment width, render the console line into
the buffer, open the file — a failure here hits the `log::error!` at
line 116 under the held lock and deadlocks with the counter and file
untouched — then append the record line (`let _ =` discards a write
failure silently), `fetch_add` the counter, and check the threshold
against the pre-increment value.  Below the threshold the closure
returns (and the console line is flushed).  On crossing it, a failed
read deadlocks at line 133 with the counter left incremented; a failed
rotation write deadlocks at line 145 before the line-148 store, so the
counter again stays incremented (the on-disk content after a failed
`fs::write` is unspecified; the modelled file keeps the pre-write
lines, and no claim depends on it); only a fully successful rotation
stores `MAX_LINES` and returns. -/
def emit (st : LogState) (level target msg date : String) (oc : Outcome) :
    EmitResult :=
  let widths := max_target_width st.maxWidth target
  let w := widths.1
  let st1 : LogState := { st with maxWidth := widths.2 }
  let cline := consoleLine level target msg w
  let tf := padTo target w
  if oc.openOk = false then
    .deadlock .openFail st1
  else
    let st2 : LogState :=
      if oc.appendOk then
        { st1 with file := st1.file ++ [fileLine level date target msg w] }
      else st1
    let pre := st2.lineCount
    let st3 : LogState := { st2 with lineCount := pre + 1 }
    if pre < MAX_LINES_THRESHOLD then
      .done st3 ⟨cline, tf, false, none⟩
    else if oc.readOk = false then
      .deadlock .readFail st3
    else
      let retained := rotateKeep st3.file pre
      let content := joinWith "\n" (retained ++ [""])
      if oc.writeOk = false then
        .deadlock .writeFail st3
      else
        .done ⟨st3.maxWidth, MAX_LINES, retained⟩ ⟨cline, tf, true, some content⟩

/-- The `Initializing` sequence of `init` (logger.rs lines 62-85), state
part only: seed `LINE_COUNT` with the existing file's line count plus one
when the file is readable (lines 67-69; on a read failure no store
happens, so the counter keeps its static initial value 0), then append
the session header.  `existing = some ls` models a readable file with
lines `ls`; `none` models an absent/unreadable file (treated as empty by
the create-mode open). -/
def initState (existing : Option (List String)) (date : String) : LogState :=
  { maxWidth := 0,
    lineCount :=
      match existing with
      | some ls => ls.length + 1
      | none => 0,
    file := existing.getD [] ++ [headerLine date] }

theorem MAX_LINES_eq : MAX_LINES = 8192 := rfl

theorem MAX_LINES_THRESHOLD_eq : MAX_LINES_THRESHOLD = 12288 := rfl

theorem joinWith_append_blank (a : String) (l : List String) :
    joinWith "\n" ((a :: l) ++ [""]) = joinWith "\n" (a :: l) ++ "\n" := by
  induction l generalizing a with
  | nil => simp [joinWith]
  | cons b rest ih =>
      have h := ih b
      simp only [List.cons_append] at h ⊢
      simp [joinWith, h, String.append_assoc]

/-- Claim C1, counterexample.  The claim quantifies over every emit call
in the Ready state and asserts the counter is always incremented by
exactly one; but when the append-mode open fails, the `log::error!` at
logger.rs line 116 re-enters the format closure while the line-107
mutex guard is held, so the call deadlocks: it never returns, and at
the hang point the counter still holds 5, not 6. -/
theorem c1_counterexample :
    (emit ⟨0, 5, []⟩ "INFO" "app" "msg" "date" ⟨false, true, true, true⟩).returns = false ∧
    (emit ⟨0, 5, []⟩ "INFO" "app" "msg" "date" ⟨false, true, true, true⟩).endState.lineCount
        = 5 ∧
    (emit ⟨0, 5, []⟩ "INFO" "app" "msg" "date" ⟨false, true, true, true⟩).endState.lineCount
        ≠ 5 + 1 :=
  ⟨rfl, rfl, by decide⟩

/-- Claim C1 (amended): for every emit call in the Ready state in which
the log file open succeeds, the rotation path is entered iff the
pre-increment counter is at least `MAX_LINES_THRESHOLD`; when it is
strictly below, the call returns normally, the counter becomes exactly
its old value plus one, no rotation occurs, and the file is at most
appended to — exactly the one record line when the append write
succeeds, nothing otherwise.  When the open fails, the internal
error-logging re-enters the closure under the held file lock and the
call never returns, with the counter left unincremented. -/
theorem c1_amended_thm (st : LogState) (l t m d : String) (a r w : Bool) :
    ((emit st l t m d ⟨true, a, r, w⟩).rotationEntered = true ↔
      MAX_LINES_THRESHOLD ≤ st.lineCount) ∧
    (st.lineCount < MAX_LINES_THRESHOLD →
      (emit st l t m d ⟨true, a, r, w⟩).returns = true ∧
      (emit st l t m d ⟨true, a, r, w⟩).endState.lineCount = st.lineCount + 1 ∧
      (emit st l t m d ⟨true, a, r, w⟩).rotated = false ∧
      (emit st l t m d ⟨true, a, r, w⟩).endState.file =
        st.file ++
          (if a = true then [fileLine l d t m (max_target_width st.maxWidth t).1]
           else [])) ∧
    ((emit st l t m d ⟨false, a, r, w⟩).returns = false ∧
     (emit st l t m d ⟨false, a, r, w⟩).endState.lineCount = st.lineCount) := by
  refine ⟨?_, fun h => ?_, rfl, rfl⟩
  · by_cases h : st.lineCount < MAX_LINES_THRESHOLD
    · have h3 : ¬ MAX_LINES_THRESHOLD ≤ st.lineCount := Nat.not_le.mpr h
      cases a <;> cases r <;> cases w <;>
        simp [emit, EmitResult.rotationEntered, h, h3]
    · have h2 : MAX_LINES_THRESHOLD ≤ st.lineCount := Nat.not_lt.mp h
      cases a <;> cases r <;> cases w <;>
        simp [emit, EmitResult.rotationEntered, h, h2]
  · refine ⟨?_, ?_, ?_, ?_⟩ <;> cases a <;>
      simp [emit, EmitResult.returns, EmitResult.endState, EmitResult.rotated, h]

/-- Claim C1 (amended), witness at a concrete low-counter state. -/
theorem c1_amended_witness :
    (emit ⟨0, 0, []⟩ "INFO" "app" "msg" "date" ⟨true, true, true, true⟩).endState.lineCount
        = 0 + 1 :=
  ((c1_amended_thm ⟨0, 0, []⟩ "INFO" "app" "msg" "date" true true true).2.1 (by decide)).2.1

/-- Claim C2: when the counter agrees with the file's line count and an
emit crosses the threshold with all I/O succeeding, the call returns and
the rewritten file is exactly the last `MAX_LINES` lines (in order) of
the file as it stood just after the triggering append — equivalently the
file with its first `line_count - MAX_LINES + 1` lines skipped — and the
content written to disk is those lines followed by one trailing blank
line. -/
theorem c2_rotation_content (st : LogState) (l t m d : String)
    (hc : st.lineCount = st.file.length)
    (ht : MAX_LINES_THRESHOLD ≤ st.lineCount) :
    (emit st l t m d ⟨true, true, true, true⟩).returns = true ∧
    (emit st l t m d ⟨true, true, true, true⟩).endState.file =
      (st.file ++ [fileLine l d t m (max_target_width st.maxWidth t).1]).drop
        (st.lineCount - MAX_LINES + 1) ∧
    (emit st l t m d ⟨true, true, true, true⟩).endState.file =
      (st.file ++ [fileLine l d t m (max_target_width st.maxWidth t).1]).drop
        ((st.file ++ [fileLine l d t m (max_target_width st.maxWidth t).1]).length
          - MAX_LINES) ∧
    (emit st l t m d ⟨true, true, true, true⟩).endState.file.length = MAX_LINES ∧
    (emit st l t m d ⟨true, true, true, true⟩).rotContent =
      some (joinWith "\n" (emit st l t m d ⟨true, true, true, true⟩).endState.file
        ++ "\n") := by
  have hm : MAX_LINES = 8192 := rfl
  have hth : MAX_LINES_THRESHOLD = 12288 := rfl
  have h2 : ¬ st.lineCount < MAX_LINES_THRESHOLD := Nat.not_lt.mpr ht
  have hret : (emit st l t m d ⟨true, true, true, true⟩).returns = true := by
    simp [emit, EmitResult.returns, h2]
  have hfile : (emit st l t m d ⟨true, true, true, true⟩).endState.file =
      (st.file ++ [fileLine l d t m (max_target_width st.maxWidth t).1]).drop
        (st.lineCount - MAX_LINES + 1) := by
    simp [emit, EmitResult.endState, h2, rotateKeep]
  have hlen : (st.file ++ [fileLine l d t m (max_target_width st.maxWidth t).1]).length
      = st.lineCount + 1 := by
    simp [hc]
  have hlen2 : (emit st l t m d ⟨true, true, true, true⟩).endState.file.length
      = MAX_LINES := by
    rw [hfile, List.length_drop, hlen]
    omega
  refine ⟨hret, hfile, ?_, hlen2, ?_⟩
  · rw [hfile, hlen]
    have hidx : st.lineCount - MAX_LINES + 1 = st.lineCount + 1 - MAX_LINES := by omega
    rw [hidx]
  · have hcontent : (emit st l t m d ⟨true, true, true, true⟩).rotContent =
        some (joinWith "\n"
          ((emit st l t m d ⟨true, true, true, true⟩).endState.file ++ [""])) := by
      simp [emit, EmitResult.rotContent, EmitResult.endState, h2, rotateKeep]
    rw [hcontent]
    rcases hne : (emit st l t m d ⟨true, true, true, true⟩).endState.file with _ | ⟨x, xs⟩
    · rw [hne] at hlen2
      simp only [List.length_nil, hm] at hlen2
      exact absurd hlen2 (by decide)
    · rw [joinWith_append_blank]

/-- Claim C2, witness: a file of exactly 12288 identical lines with a
counter in sync. -/
theorem c2_rotation_content_witness :
    (emit ⟨0, 12288, List.replicate 12288 "x"⟩ "INFO" "app" "msg" "date"
        ⟨true, true, true, true⟩).endState.file.length = MAX_LINES :=
  (c2_rotation_content ⟨0, 12288, List.replicate 12288 "x"⟩ "INFO" "app" "msg" "date"
      (by show 12288 = (List.replicate 12288 "x").length
          rw [List.length_replicate])
      (by decide)).2.2.2.1

/-- Claim C3, counterexample.  The claim asserts every failed rotation
reports the error via the console sink and resets the counter to
`MAX_LINES`; but a read failure hits the `log::error!` at logger.rs
line 133 while the line-107 mutex guard is held, so the call deadlocks:
nothing is ever flushed to the console, the call never returns, and the
counter stays at 12289, not 8192. -/
theorem c3_counterexample :
    (emit ⟨0, 12288, []⟩ "INFO" "app" "msg" "date" ⟨true, true, false, true⟩).returns
        = false ∧
    (emit ⟨0, 12288, []⟩ "INFO" "app" "msg" "date" ⟨true, true, false, true⟩).consoleOut
        = none ∧
    (emit ⟨0, 12288, []⟩ "INFO" "app" "msg" "date" ⟨true, true, false, true⟩).endState.lineCount
        = 12289 ∧
    (emit ⟨0, 12288, []⟩ "INFO" "app" "msg" "date" ⟨true, true, false, true⟩).endState.lineCount
        ≠ MAX_LINES :=
  ⟨rfl, rfl, rfl, by decide⟩

/-- Claim C3 (amended): for every emit call that triggers rotation and in
which rotate() fails — at the read or at the write step — the error is
never reported and the counter is never reset to `MAX_LINES`: the
`log::error!` (logger.rs line 133, resp. 145) re-enters the format
closure while the file lock is held, so the call deadlocks, flushes
nothing to the console, and leaves the counter at its incremented value
(the write-failure deadlock fires before the line-148 store). -/
theorem c3_amended_thm (st : LogState) (l t m d : String) (a : Bool)
    (ht : MAX_LINES_THRESHOLD ≤ st.lineCount) :
    (emit st l t m d ⟨true, a, false, true⟩).returns = false ∧
    (emit st l t m d ⟨true, a, false, true⟩).consoleOut = none ∧
    (emit st l t m d ⟨true, a, false, true⟩).endState.lineCount = st.lineCount + 1 ∧
    (emit st l t m d ⟨true, a, false, true⟩).endState.lineCount ≠ MAX_LINES ∧
    (emit st l t m d ⟨true, a, true, false⟩).returns = false ∧
    (emit st l t m d ⟨true, a, true, false⟩).consoleOut = none ∧
    (emit st l t m d ⟨true, a, true, false⟩).endState.lineCount = st.lineCount + 1 ∧
    (emit st l t m d ⟨true, a, true, false⟩).endState.lineCount ≠ MAX_LINES := by
  have hm : MAX_LINES = 8192 := rfl
  have hth : MAX_LINES_THRESHOLD = 12288 := rfl
  have h2 : ¬ st.lineCount < MAX_LINES_THRESHOLD := Nat.not_lt.mpr ht
  refine ⟨?_, ?_, ?_, ?_, ?_, ?_, ?_, ?_⟩ <;> cases a <;>
    simp [emit, EmitResult.returns, EmitResult.consoleOut, EmitResult.endState, h2] <;>
    omega

/-- Claim C3 (amended), witness at a concrete threshold-crossing state. -/
theorem c3_amended_witness :
    (emit ⟨0, 12300, []⟩ "INFO" "app" "msg" "date" ⟨true, true, true, false⟩).endState.lineCount
        = 12300 + 1 :=
  (c3_amended_thm ⟨0, 12300, []⟩ "INFO" "app" "msg" "date" true (by decide)).2.2.2.2.2.2.1

/-- Claim C4, counterexample.  The claim says the counter is seeded to
zero plus one when the file is absent or unreadable; but on a read
failure the `if let Ok(count)` at logger.rs lines 67-69 performs no store
at all, so the counter keeps its static initial value 0, not 1. -/
theorem c4_counterexample :
    (initState none "2024-01-01 00:00:00").lineCount = 0 ∧
    (initState none "2024-01-01 00:00:00").lineCount ≠ 0 + 1 :=
  ⟨rfl, by decide⟩

/-- Claim C4 (amended): at initialization the counter is seeded to the
existing file's line count plus one when the file is readable, and is
left at its initial value zero (not zero plus one) when the file is
absent or unreadable; thereafter, every accepted record whose file open
succeeds and whose pre-increment counter is below the threshold returns
normally having incremented the counter by exactly one. -/
theorem c4_amended_thm (ls : List String) (d : String) (st : LogState)
    (l t m dd : String) (a r w : Bool) :
    (initState (some ls) d).lineCount = ls.length + 1 ∧
    (initState none d).lineCount = 0 ∧
    (st.lineCount < MAX_LINES_THRESHOLD →
      (emit st l t m dd ⟨true, a, r, w⟩).returns = true ∧
      (emit st l t m dd ⟨true, a, r, w⟩).endState.lineCount = st.lineCount + 1) := by
  refine ⟨rfl, rfl, fun h => ⟨?_, ?_⟩⟩ <;> cases a <;>
    simp [emit, EmitResult.returns, EmitResult.endState, h]

/-- Claim C4 (amended), witness. -/
theorem c4_amended_witness :
    (emit ⟨0, 0, []⟩ "INFO" "app" "msg" "date" ⟨true, true, true, true⟩).endState.lineCount
        = 0 + 1 :=
  ((c4_amended_thm [] "d" ⟨0, 0, []⟩ "INFO" "app" "msg" "date" true true true).2.2
      (by decide)).2

/-- Claim C5: a file of `MAX_LINES_THRESHOLD - 1` lines, seeded through
initialization (counter becomes its line count plus one, i.e. exactly the
threshold, and the session header is appended), rotates to completion on
the very next all-success emitted record, which returns with the counter
equal to `MAX_LINES`. -/
theorem c5_rotation_trigger (ls : List String) (d l t m dd : String)
    (h : ls.length = MAX_LINES_THRESHOLD - 1) :
    (emit (initState (some ls) d) l t m dd ⟨true, true, true, true⟩).returns = true ∧
    (emit (initState (some ls) d) l t m dd ⟨true, true, true, true⟩).rotated = true ∧
    (emit (initState (some ls) d) l t m dd ⟨true, true, true, true⟩).endState.lineCount
        = MAX_LINES := by
  have hth : MAX_LINES_THRESHOLD = 12288 := rfl
  have hc : (initState (some ls) d).lineCount = ls.length + 1 := rfl
  have h2 : ¬ (initState (some ls) d).lineCount < MAX_LINES_THRESHOLD := by
    rw [hc]
    omega
  refine ⟨?_, ?_, ?_⟩ <;>
    simp [emit, EmitResult.returns, EmitResult.rotated, EmitResult.endState, h2]

/-- Claim C5, witness: a pre-seeded file of exactly 12287 lines. -/
theorem c5_rotation_trigger_witness :
    (emit (initState (some (List.replicate 12287 "x")) "d") "INFO" "app" "msg" "date"
        ⟨true, true, true, true⟩).endState.lineCount = MAX_LINES :=
  (c5_rotation_trigger (List.replicate 12287 "x") "d" "INFO" "app" "msg" "date"
      (by rw [List.length_replicate]; rfl)).2.2

/-- Claim C6, counterexample.  The claim asserts that emitting targets
"a" and "ab" in either order renders both target fields at exactly 2
columns; but in the order "a" first, `max_target_width` has only seen
width 1 when the first record is rendered, so its target field occupies
1 column, and already-emitted lines are never realigned. -/
theorem c6_counterexample :
    (emit ⟨0, 0, []⟩ "INFO" "a" "msg" "date" ⟨true, true, true, true⟩).fieldWidth
        = some 1 ∧
    ¬ (emit ⟨0, 0, []⟩ "INFO" "a" "msg" "date" ⟨true, true, true, true⟩).fieldWidth
        = some 2 := by
  decide

/-- Claim C6 (amended): starting from alignment width 0, emitting "ab"
then "a" renders both target fields at exactly 2 columns, while in the
order "a" then "ab" the first record's field occupies 1 column and the
second 2 (already-emitted lines are not realigned); emitting a further
record with target "abc" renders its field — and hence subsequent
output — at 3 columns. -/
theorem c6_amended_thm :
    (emit ⟨0, 0, []⟩ "INFO" "ab" "msg" "date" ⟨true, true, true, true⟩).fieldWidth
        = some 2 ∧
    (emit (emit ⟨0, 0, []⟩ "INFO" "ab" "msg" "date" ⟨true, true, true, true⟩).endState
        "INFO" "a" "msg" "date" ⟨true, true, true, true⟩).fieldWidth = some 2 ∧
    (emit ⟨0, 0, []⟩ "INFO" "a" "msg" "date" ⟨true, true, true, true⟩).fieldWidth
        = some 1 ∧
    (emit (emit ⟨0, 0, []⟩ "INFO" "a" "msg" "date" ⟨true, true, true, true⟩).endState
        "INFO" "ab" "msg" "date" ⟨true, true, true, true⟩).fieldWidth = some 2 ∧
    (emit (emit (emit ⟨0, 0, []⟩ "INFO" "ab" "msg" "date" ⟨true, true, true, true⟩).endState
        "INFO" "a" "msg" "date" ⟨true, true, true, true⟩).endState
        "INFO" "abc" "msg" "date" ⟨true, true, true, true⟩).fieldWidth = some 3 := by
  decide

/-- Claim C7, counterexample.  The claim asserts that when the log file
cannot be opened the console line is still produced, the failure is
reported through the console sink, and the call returns normally; but
the `log::error!` at logger.rs line 116 re-enters the format closure
while the line-107 mutex guard is held, so the call deadlocks before
env_logger flushes anything: it never returns and no console output —
the record's line included — is ever produced. -/
theorem c7_counterexample :
    (emit ⟨0, 3, []⟩ "INFO" "app" "msg" "date" ⟨false, true, true, true⟩).returns = false ∧
    (emit ⟨0, 3, []⟩ "INFO" "app" "msg" "date" ⟨false, true, true, true⟩).consoleOut
        = none :=
  ⟨rfl, rfl⟩

/-- Claim C7 (amended): when the log file cannot be opened during an
emit call, the call never returns — the internal error-logging
re-enters the format closure under the held file lock and deadlocks
before any console output is flushed — and at the hang point the file
and the counter are untouched.  When the open succeeds but the record
write fails, the console line is produced, the failure is silently
discarded, no error reaches the caller, and the counter increment and
threshold check still run with the file left unchanged. -/
theorem c7_amended_thm (st : LogState) (l t m d : String) (a r w : Bool) :
    (emit st l t m d ⟨false, a, r, w⟩).returns = false ∧
    (emit st l t m d ⟨false, a, r, w⟩).consoleOut = none ∧
    (emit st l t m d ⟨false, a, r, w⟩).endState.file = st.file ∧
    (emit st l t m d ⟨false, a, r, w⟩).endState.lineCount = st.lineCount ∧
    (st.lineCount < MAX_LINES_THRESHOLD →
      (emit st l t m d ⟨true, false, r, w⟩).returns = true ∧
      (emit st l t m d ⟨true, false, r, w⟩).consoleOut =
        some (consoleLine l t m (max_target_width st.maxWidth t).1) ∧
      (emit st l t m d ⟨true, false, r, w⟩).endState.lineCount = st.lineCount + 1 ∧
      (emit st l t m d ⟨true, false, r, w⟩).endState.file = st.file) := by
  refine ⟨rfl, rfl, rfl, rfl, fun h => ⟨?_, ?_, ?_, ?_⟩⟩ <;>
    simp [emit, EmitResult.returns, EmitResult.consoleOut, EmitResult.endState, h]

/-- Claim C7 (amended), witness. -/
theorem c7_amended_witness :
    (emit ⟨0, 0, []⟩ "INFO" "app" "msg" "date" ⟨true, false, true, true⟩).endState.lineCount
        = 0 + 1 :=
  ((c7_amended_thm ⟨0, 0, []⟩ "INFO" "app" "msg" "date" false true true).2.2.2.2
      (by decide)).2.2.1

/-- Claim C8: starting from an existing readable file with `L` lines,
initialization appends one session header and seeds the counter to
`L + 1`; one emitted record with all file I/O succeeding and no threshold
crossing returns normally and leaves the file with exactly `L + 2`
lines. -/
theorem c8_startup_recovery (ls : List String) (d l t m dd : String)
    (h : ls.length + 1 < MAX_LINES_THRESHOLD) :
    (emit (initState (some ls) d) l t m dd ⟨true, true, true, true⟩).returns = true ∧
    (emit (initState (some ls) d) l t m dd ⟨true, true, true, true⟩).endState.file.length
      = ls.length + 2 := by
  constructor <;> simp [emit, initState, EmitResult.returns, EmitResult.endState, h]

/-- Claim C8, witness at an initially empty file. -/
theorem c8_startup_recovery_witness :
    (emit (initState (some []) "d") "INFO" "app" "msg" "date"
        ⟨true, true, true, true⟩).endState.file.length = List.length ([] : List String) + 2 :=
  (c8_startup_recovery [] "d" "INFO" "app" "msg" "date" (by decide)).2

/-- Claim C9: `max_target_width` returns exactly the maximum of the
stored width and the current target's length — so the returned width is
never smaller than the current target's length and the target is never
truncated — and the stored width never decreases. -/
theorem c9_max_target_width (stored : Nat) (t : String) :
    (max_target_width stored t).1 = max stored t.length ∧
    t.length ≤ (max_target_width stored t).1 ∧
    stored ≤ (max_target_width stored t).2 := by
  unfold max_target_width
  split
  all_goals simp_all
  all_goals omega

/-- Claim C10, counterexample.  The claim asserts that after a
read-failed rotation the emit call returns (so rotation is re-attempted
on the next emit), and that reaching the write step resets the counter;
but a read failure deadlocks at logger.rs line 133 under the held lock —
the call never returns, so no later emit runs at all — and a rotation
that reaches the write step but fails deadlocks at line 145 before the
line-148 store, leaving the counter at 13001, not 8192. -/
theorem c10_counterexample :
    (emit ⟨0, 13000, []⟩ "INFO" "app" "msg" "date" ⟨true, true, false, true⟩).returns
        = false ∧
    (emit ⟨0, 13000, []⟩ "INFO" "app" "msg" "date" ⟨true, true, true, false⟩).returns
        = false ∧
    (emit ⟨0, 13000, []⟩ "INFO" "app" "msg" "date" ⟨true, true, true, false⟩).endState.lineCount
        = 13001 ∧
    (emit ⟨0, 13000, []⟩ "INFO" "app" "msg" "date" ⟨true, true, true, false⟩).endState.lineCount
        ≠ MAX_LINES :=
  ⟨rfl, rfl, rfl, by decide⟩

/-- Claim C10 (amended): when a triggered rotation fails at the read
step the emit call never returns — it deadlocks re-entering the logger
under the held file lock with the counter left at its incremented value
at the hang point, and since the lock is never released no subsequent
emit can run, so rotation is never re-attempted.  A rotation that
reaches the write step resets the counter to `MAX_LINES` only when the
write succeeds: a failed write likewise deadlocks before the line-148
store, leaving the counter incremented, while a fully successful
rotation returns with the counter equal to `MAX_LINES`. -/
theorem c10_amended_thm (st : LogState) (l t m d : String) (a w3 : Bool)
    (ht : MAX_LINES_THRESHOLD ≤ st.lineCount) :
    (emit st l t m d ⟨true, a, false, w3⟩).returns = false ∧
    (emit st l t m d ⟨true, a, false, w3⟩).endState.lineCount = st.lineCount + 1 ∧
    (emit st l t m d ⟨true, a, true, false⟩).returns = false ∧
    (emit st l t m d ⟨true, a, true, false⟩).endState.lineCount = st.lineCount + 1 ∧
    (emit st l t m d ⟨true, a, true, true⟩).returns = true ∧
    (emit st l t m d ⟨true, a, true, true⟩).endState.lineCount = MAX_LINES := by
  have h2 : ¬ st.lineCount < MAX_LINES_THRESHOLD := Nat.not_lt.mpr ht
  refine ⟨?_, ?_, ?_, ?_, ?_, ?_⟩ <;> cases a <;> cases w3 <;>
    simp [emit, EmitResult.returns, EmitResult.endState, h2]

/-- Claim C10 (amended), witness at a concrete threshold-crossing state. -/
theorem c10_amended_witness :
    (emit ⟨0, 12288, []⟩ "INFO" "app" "msg" "date" ⟨true, true, false, true⟩).endState.lineCount
        = 12288 + 1 :=
  (c10_amended_thm ⟨0, 12288, []⟩ "INFO" "app" "msg" "date" true true (by decide)).2.1

end Ferroxide
